import Mathlib

/-!
Verification development for the zoho_engineer_performance_report repository.

The repository consists of four Python scripts:
  * Dipu_Mandal.py               — export a dashboard PDF from the analytics
                                   service (async bulk job) and send it via the
                                   messaging API to a single recipient;
  * engineer_working_hour.py     — same export, delivered to a list of
                                   recipients (upload once, send per recipient);
  * weekly_engineer_performance_report_explaination/Tanmay_Mondal.py
                                 — export, AI analysis, scorecard PDF rendering
                                   (generate_report_pdf), delivery;
  * weekly_engineer_performance_report_explaination/run_reports.py
                                 — batch driver running a slice of the report
                                   scripts sequentially.

Each definition below is a shallow embedding of the corresponding Python
function: network responses become explicit input sequences, dictionary
lookups with defaults become Option.getD, and the rendered PDF becomes a
list of structured elements mirroring the flowables appended to the
document.  Layout-only Spacer flowables carry no data and are not modelled.
-/

namespace ZohoReport

/-! ## Token providers

`zoho_get_access_token` (Dipu_Mandal.py, engineer_working_hour.py — the two
copies are textually identical) and `get_zoho_access_token`
(Tanmay_Mondal.py).  A token-exchange attempt is abstracted by the parts of
the HTTP response the code inspects: on a 2xx response only the
`access_token` field of the JSON body matters (modelled as `Option String`,
`none` when the field is absent); `raise_for_status` turns a non-2xx status
into an HTTPError carrying that status; a transport-level failure raises a
RequestException. -/

/-- One token-exchange attempt's outcome, as seen by the Python code. -/
inductive TokenResponse where
  /-- 2xx response; the payload is the `access_token` field of the JSON
  body (`none` when the field is absent). -/
  | success (accessToken : Option String)
  /-- `raise_for_status` raised an HTTPError with this status code. -/
  | httpError (status : Int)
  /-- `requests.post` raised a RequestException (transport failure). -/
  | transportError
deriving DecidableEq

/-- What the token provider does in the end. -/
inductive TokenResult where
  /-- returned this token string -/
  | token (t : String)
  /-- an HTTPError propagated out -/
  | raisedHttp (status : Int)
  /-- a RequestException propagated out -/
  | raisedTransport
  /-- Dipu_Mandal.py: `r.json()["access_token"]` raised KeyError -/
  | raisedKeyError
  /-- Tanmay_Mondal.py: `raise ValueError(...)` on missing/empty token -/
  | raisedValueError
  /-- the final `raise RuntimeError(...)` after the loop (unreachable:
  the loop always returns or raises) -/
  | raisedExhausted
deriving DecidableEq

/-- `TokenResult.isError r` is `true` unless the provider returned a token. -/
def TokenResult.isError : TokenResult → Bool
  | .token _ => false
  | _ => true

/-- Loop body of `zoho_get_access_token` (Dipu_Mandal.py lines 66-90).
`responses n` is the outcome of the (n+1)-st wrapped HTTP call; `attempt`
is the Python loop variable; `fuel` is the number of remaining iterations
of `for attempt in range(5)`.  Returns the final result together with the
number of times the wrapped operation was invoked. -/
def dipuLoop (responses : Nat → TokenResponse) : Nat → Nat → TokenResult × Nat
  | attempt, 0 => (.raisedExhausted, attempt)
  | attempt, fuel + 1 =>
    match responses attempt with
    | .success tok =>
      -- return r.json()["access_token"]  (KeyError when the field is absent)
      match tok with
      | some t => (.token t, attempt + 1)
      | none => (.raisedKeyError, attempt + 1)
    | .httpError s =>
      -- retry iff status == 400 and attempt < max_retries - 1
      if s = 400 ∧ attempt < 4 then dipuLoop responses (attempt + 1) fuel
      else (.raisedHttp s, attempt + 1)
    | .transportError =>
      -- RequestException: retry iff attempt < max_retries - 1
      if attempt < 4 then dipuLoop responses (attempt + 1) fuel
      else (.raisedTransport, attempt + 1)

/-- `zoho_get_access_token` of Dipu_Mandal.py / engineer_working_hour.py:
`max_retries = 5`, `for attempt in range(max_retries)`. -/
def zoho_get_access_token (responses : Nat → TokenResponse) : TokenResult × Nat :=
  dipuLoop responses 0 5

/-- Loop body of `get_zoho_access_token` (Tanmay_Mondal.py lines 111-137).
Only `requests.HTTPError` is caught there; a RequestException propagates,
and the ValueError raised on a missing or empty token field propagates. -/
def tanmayLoop (responses : Nat → TokenResponse) : Nat → Nat → TokenResult × Nat
  | attempt, 0 => (.raisedExhausted, attempt)
  | attempt, fuel + 1 =>
    match responses attempt with
    | .success tok =>
      -- token = r.json().get("access_token"); if not token: raise ValueError
      match tok with
      | some t => if t = "" then (.raisedValueError, attempt + 1) else (.token t, attempt + 1)
      | none => (.raisedValueError, attempt + 1)
    | .httpError s =>
      -- retry iff status == 400 and attempt < 4
      if s = 400 ∧ attempt < 4 then tanmayLoop responses (attempt + 1) fuel
      else (.raisedHttp s, attempt + 1)
    | .transportError => (.raisedTransport, attempt + 1)

/-- `get_zoho_access_token` of Tanmay_Mondal.py: `for attempt in range(5)`. -/
def get_zoho_access_token (responses : Nat → TokenResponse) : TokenResult × Nat :=
  tanmayLoop responses 0 5

/-- A response is retryable for the Dipu provider iff it is the rate-limit
status 400 or a transport failure. -/
def retryableDipu (r : TokenResponse) : Prop :=
  r = .httpError 400 ∨ r = .transportError

/-- A response is retryable for the Tanmay provider iff it is the
rate-limit status 400 (transport failures are not caught there). -/
def retryableTanmay (r : TokenResponse) : Prop :=
  r = .httpError 400

/-- The error the provider surfaces when re-raising a failed attempt. -/
def errorRaised : TokenResponse → TokenResult
  | .httpError s => .raisedHttp s
  | .transportError => .raisedTransport
  | .success _ => .raisedKeyError

/-- What `return r.json()["access_token"]` does in Dipu_Mandal.py: the
token when the field is present (even when empty), KeyError otherwise. -/
def tokenOutcome : Option String → TokenResult
  | some t => .token t
  | none => .raisedKeyError

/-! ## Async export job poller

`zoho_bulk_export_pdf` (Dipu_Mandal.py lines 98-136, identical in
engineer_working_hour.py lines 127-165) and the same loop in
`fetch_zoho_pdf` (Tanmay_Mondal.py lines 140-191).  After creating the job
the code polls up to 120 times; `statuses n` is the integer jobCode of the
(n+1)-st poll response. -/

/-- What the export flow does after the polling loop ends. -/
inductive ExportOutcome where
  /-- the loop ended (via `break` on jobCode 1004 or by exhausting its 120
  iterations) and the code proceeded to the download request; `polls` is
  the number of poll requests issued -/
  | fetched (polls : Nat)
  /-- `raise RuntimeError(f"Zoho bulk export failed. jobCode=...")` on an
  unexpected status, without fetching -/
  | failed (code : Int) (polls : Nat)
deriving DecidableEq

/-- The `for _ in range(120)` polling loop.  `i` counts polls issued so
far, `budget` the remaining iterations. -/
def pollLoop (statuses : Nat → Int) : Nat → Nat → ExportOutcome
  | i, 0 => .fetched i
  | i, budget + 1 =>
    let code := statuses i
    if code = 1001 ∨ code = 1002 then pollLoop statuses (i + 1) budget
    else if code = 1004 then .fetched (i + 1)
    else .failed code (i + 1)

/-- `zoho_bulk_export_pdf`: poll the job up to 120 times, then download. -/
def zoho_bulk_export_pdf (statuses : Nat → Int) : ExportOutcome :=
  pollLoop statuses 0 120

/-! ## The performance record

Input of `generate_report_pdf` (Tanmay_Mondal.py lines 394-759): the JSON
document produced by the analysis step, per the schema of ANALYSIS_PROMPT
(lines 200-289).  Every field access in the renderer is `dict.get` with a
default, so each field is an `Option`; an absent sub-section dictionary
behaves exactly like one whose fields are all absent, so sub-sections are
`Option` structures whose default is the all-`none` value.  Sub-section
scores are formatted with the integer-only `%+d` format specifier
(lines 520, 524, 620), so a record the renderer accepts carries integers
there; the rollup fields (totals, percentage) are arbitrary numbers,
modelled as rationals. -/

structure DayEntry where
  day : Option String
  hours : Option String
  check_in : Option String
  check_out : Option String
  status : Option String
deriving DecidableEq

structure FormExample where
  company : Option String
  machine_no : Option String
  work_type : Option String
  problem : Option String
  work_done : Option String
  quality_assessment : Option String
deriving DecidableEq

structure FeedbackRating where
  company : Option String
  machine_no : Option String
  rating : Option ℚ
  out_of : Option ℚ
  date : Option String
  comment : Option String
deriving DecidableEq

structure RepeatCall where
  company : Option String
  machine_no : Option String
  first_visit : Option String
  repeat_date : Option String
  issue_type : Option String
deriving DecidableEq

structure WorkingHours where
  score : Option Int
  max_score : Option Int
  days : Option (List DayEntry)
  week1_score : Option Int
  week2_score : Option Int
deriving DecidableEq

structure FormQuality where
  score : Option Int
  max_score : Option Int
  examples : Option (List FormExample)
  week1_score : Option Int
  week2_score : Option Int
deriving DecidableEq

structure Feedback where
  score : Option Int
  max_score : Option Int
  applicable : Option Bool
  ratings : Option (List FeedbackRating)
  week1_score : Option Int
  week2_score : Option Int
deriving DecidableEq

structure RepeatCalls where
  score : Option Int
  max_score : Option Int
  count : Option ℚ
  calls : Option (List RepeatCall)
deriving DecidableEq

structure PerformanceRecord where
  engineer_name : Option String
  week_range : Option String
  working_hours : Option WorkingHours
  form_quality : Option FormQuality
  feedback : Option Feedback
  repeat_calls : Option RepeatCalls
  total_score : Option ℚ
  max_possible : Option ℚ
  percentage : Option ℚ
  week1_total : Option ℚ
  week1_max : Option ℚ
  strengths : Option (List String)
  weaknesses : Option (List String)
deriving DecidableEq

/-- `data.get("working_hours", {})`: an absent sub-section is the empty dict. -/
def whOf (r : PerformanceRecord) : WorkingHours :=
  r.working_hours.getD ⟨none, none, none, none, none⟩

/-- `data.get("form_quality", {})`. -/
def fqOf (r : PerformanceRecord) : FormQuality :=
  r.form_quality.getD ⟨none, none, none, none, none⟩

/-- `data.get("feedback", {})`. -/
def fbOf (r : PerformanceRecord) : Feedback :=
  r.feedback.getD ⟨none, none, none, none, none, none⟩

/-- `data.get("repeat_calls", {})`. -/
def rcOf (r : PerformanceRecord) : RepeatCalls :=
  r.repeat_calls.getD ⟨none, none, none, none⟩

/-! ## The rendered document

The renderer builds a list of reportlab flowables; we model the document
as the list of those flowables with their semantic payload (texts that
are pure literals in the source stay literal strings; numbers that are
interpolated into the text are carried as numbers).  Spacer flowables are
layout-only and omitted. -/

/-- Colour palette of Tanmay_Mondal.py lines 340-348 (hex strings). -/
def C_BLUE : String := "#0066CC"

def C_BLUE_LIGHT : String := "#4A90E2"

def C_GREEN : String := "#27AE60"

def C_ORANGE : String := "#F39C12"

def C_RED : String := "#E74C3C"

def C_LGRAY : String := "#F5F5F5"

def C_DARK : String := "#333333"

/-- One of the four metric cards built by `_card_col` (lines 470-478):
title, score text, max text, status text, and the display colour
(`"#27AE60" if good else "#E74C3C"`). -/
structure Card where
  title : String
  scoreText : String
  maxText : String
  statusText : String
  color : String
deriving DecidableEq

/-- `_card_col(title, score, max_s, status_txt, good)`. -/
def mkCard (title scoreText maxText statusText : String) (good : Bool) : Card :=
  ⟨title, scoreText, maxText, statusText, if good then "#27AE60" else "#E74C3C"⟩

/-- The text of a `_banner(...)` call; the count banner carries the
interpolated `rc.get('count', 0)` value. -/
inductive BannerText where
  /-- "CRITICAL - DOCUMENTATION REQUIRES IMMEDIATE IMPROVEMENT" (line 632) -/
  | criticalDoc
  /-- "NO FEEDBACK DATA COLLECTED — SCORE NOT APPLICABLE" (line 672) -/
  | noFeedback
  /-- "ZERO REPEAT CALLS — PERFECT FIRST-TIME FIX RATE" (line 722) -/
  | zeroRepeat
  /-- f"{rc.get('count',0)} REPEAT CALL(S) RECORDED THIS WEEK" (line 730) -/
  | repeatCount (count : ℚ)
deriving DecidableEq

/-- One row of the working-hours table (lines 578-596) together with the
row background applied by the style loop (lines 608-611). -/
structure DayRow where
  day : String
  check_in : String
  check_out : String
  hours : String
  flag : String
  rowBg : String
deriving DecidableEq

/-- Payload of the week-over-week comparison table (lines 514-537). -/
structure CmpData where
  whWeek1 : Int
  whScore : Int
  fqWeek1 : Int
  fqScore : Int
  fbWeek1 : Int
  fbWeek2Text : String
  rcScore : Int
  w1Total : ℚ
  w1Max : ℚ
  w1Pct : ℚ
  total : ℚ
  maxPts : ℚ
  pct : ℚ
  deltaText : String
deriving DecidableEq

/-- One row of the customer-feedback ratings table (lines 694-703). -/
structure FbRow where
  company : String
  machine : String
  rating : ℚ
  outOf : ℚ
  ratingColor : String
  date : String
  comment : String
deriving DecidableEq

/-- One row of the repeat-calls incident table (lines 741-746). -/
structure RcRow where
  company : String
  machine : String
  firstVisit : String
  repeatDate : String
  issueType : String
deriving DecidableEq

/-- A flowable appended to `els` by `generate_report_pdf`. -/
inductive El where
  /-- engineer name, upper-cased (line 435) -/
  | title (name : String)
  /-- f"Performance Analysis Report | Week 2 ({week})" (line 440) -/
  | subtitle (week : String)
  /-- the executive-summary banner (lines 447-466): score label
  `total/max_pts`, the percentage, the status text and banner colour -/
  | execBanner (total maxPts pct : ℚ) (statusText : String) (color : String)
  /-- the four metric cards (lines 485-504) -/
  | cards (c1 c2 c3 c4 : Card)
  /-- a fixed-text section heading paragraph with its text colour -/
  | heading (text : String) (color : String)
  /-- the week-over-week comparison table (line 538) -/
  | cmpTable (d : CmpData)
  /-- the key-insights info box (line 560) -/
  | insightsBox (strengths weaknesses : List String)
  | pageBreak
  /-- the working-hours day table (line 613) -/
  | daysTable (rows : List DayRow)
  /-- the score/week-comparison analysis line (lines 617-622) -/
  | whAnalysis (score week1 : Int)
  /-- f"2. FORM QUALITY: {fq_score}/20" with its tier colour (line 628) -/
  | fqHeading (score : Int) (color : String)
  /-- a `_banner(text, color)` call -/
  | bannerEl (text : BannerText) (color : String)
  /-- "Documentation Examples from This Week:" (line 635) -/
  | examplesHeader
  /-- one styled documentation-example block (lines 638-663) -/
  | exampleBlock (idx : Nat) (company machine workType qualityDisplay
      problem workDone hdrBg bg boxColor : String)
  /-- the feedback ratings table (line 704) -/
  | fbTable (rows : List FbRow)
  /-- the feedback not-applicable info box (lines 674-683), carrying the
  numbers interpolated into its text: the current total and max and the
  would-be total, max and percentage assuming an average 21/30 rating -/
  | inapplicableBox (total maxPts wouldTotal wouldMax wouldPct : ℚ)
  /-- f"4. REPEAT CALLS: {rc_score}/30" with its colour (line 718) -/
  | rcHeading (score : Int) (color : String)
  /-- the "All customer issues resolved on first visit..." box (line 724) -/
  | zeroRepeatInfoBox
  /-- the repeat-calls incident table (line 747) -/
  | rcTable (rows : List RcRow)
deriving DecidableEq

/-- Python `f"{i:+d}"` for an int: always an explicit sign. -/
def pySignedInt (i : Int) : String :=
  if 0 ≤ i then "+" ++ toString i else toString i

/-- Lines 578-596 and 608-611: one day-table row and its background. -/
def mkDayRow (d : DayEntry) : DayRow :=
  let h := d.hours.getD "—"
  let status := (d.status.getD "").toLower
  let flag :=
    if status = "absent" then "ABSENT"
    else if status = "exceptional" then "EXCEPTIONAL! " ++ h
    else h
  let rowBg := if status = "absent" then "#FFE5E5" else "#E8F5E9"
  ⟨d.day.getD "", d.check_in.getD "—", d.check_out.getD "—", h, flag, rowBg⟩

/-- Lines 638-663: one documentation-example block (1-based index `i`).
`fqColor` is the form-quality tier colour used for the box border. -/
def mkExampleBlock (fqColor : String) (p : Nat × FormExample) : El :=
  let i := p.1
  let ex := p.2
  let qa := (ex.quality_assessment.getD "").toLower
  let bg :=
    if qa = "poor" ∨ qa = "critical" then "#FFE5E5"
    else if qa = "average" then "#FFF9E6"
    else "#E8F5E9"
  let hdrBg :=
    if qa = "poor" ∨ qa = "critical" then "#FFCCCC"
    else if qa = "average" then "#FFE5B4"
    else "#CCEECC"
  .exampleBlock i (ex.company.getD "—") (ex.machine_no.getD "—")
    (ex.work_type.getD "—") (ex.quality_assessment.getD "—").toUpper
    (ex.problem.getD "—") (ex.work_done.getD "—") hdrBg bg fqColor

/-- Lines 694-703: one feedback-ratings table row. -/
def mkFbRow (r : FeedbackRating) : FbRow :=
  let rt := r.rating.getD 0
  let clr := if rt ≥ 8 then "#27AE60" else if rt ≥ 6 then "#F39C12" else "#E74C3C"
  ⟨r.company.getD "—", r.machine_no.getD "—", rt, r.out_of.getD 10, clr,
    r.date.getD "—", r.comment.getD "—"⟩

/-- Lines 741-746: one repeat-calls incident table row. -/
def mkRcRow (c : RepeatCall) : RcRow :=
  ⟨c.company.getD "—", c.machine_no.getD "—", c.first_visit.getD "—",
    c.repeat_date.getD "—", c.issue_type.getD "—"⟩

/-- Card "WORKING HOURS" (line 485): `wh_good = wh.get("score", 0) >= 15`. -/
def card1 (data : PerformanceRecord) : Card :=
  let wh := whOf data
  let wh_good := wh.score.getD 0 ≥ 15
  mkCard "WORKING HOURS" (toString (wh.score.getD 0))
    (toString (wh.max_score.getD 20)) (if wh_good then "PERFECT" else "NEEDS WORK") wh_good

/-- Card "FORM QUALITY" (line 486): `fq_good = fq.get("score", 0) >= 8`. -/
def card2 (data : PerformanceRecord) : Card :=
  let fq := fqOf data
  let fq_good := fq.score.getD 0 ≥ 8
  mkCard "FORM QUALITY" (toString (fq.score.getD 0))
    (toString (fq.max_score.getD 20)) (if fq_good then "GOOD" else "CRITICAL") fq_good

/-- Card "FEEDBACK" (lines 488-489): `fb_good = fb.get("applicable", True)
and fb.get("score", 0) >= 20`. -/
def card3 (data : PerformanceRecord) : Card :=
  let fb := fbOf data
  let fb_applicable := fb.applicable.getD true
  let fb_good := fb_applicable ∧ fb.score.getD 0 ≥ 20
  mkCard "FEEDBACK" (if fb_applicable then toString (fb.score.getD 0) else "N/A")
    (if fb_applicable then "30" else "—")
    (if ¬fb_applicable then "N/A" else if fb_good then "GOOD" else "LOW") fb_good

/-- Card "REPEAT CALLS" (line 490): `rc_good = rc.get("score", 0) == 30`. -/
def card4 (data : PerformanceRecord) : Card :=
  let rc := rcOf data
  let rc_good := rc.score.getD 0 = 30
  mkCard "REPEAT CALLS" (toString (rc.score.getD 0))
    (toString (rc.max_score.getD 30)) (if rc_good then "PERFECT" else "HAS REPEATS") rc_good

/-- Page 1 (lines 433-560): executive summary. -/
def page1 (data : PerformanceRecord) : List El :=
  let name := data.engineer_name.getD "Engineer"
  let week := data.week_range.getD ""
  let wh := whOf data
  let fq := fqOf data
  let fb := fbOf data
  let rc := rcOf data
  let total := data.total_score.getD 0
  let max_pts := data.max_possible.getD 100
  let pct := data.percentage.getD 0
  let w1_total := data.week1_total.getD 0
  let w1_max := data.week1_max.getD 70
  -- status text / banner colour (lines 411-419)
  let status_text :=
    if pct ≥ 80 then "EXCELLENT"
    else if pct ≥ 70 then "ACCEPTABLE - IMPROVEMENT NEEDED"
    else "BELOW STANDARD - URGENT ACTION REQUIRED"
  let banner_color :=
    if pct ≥ 80 then C_GREEN else if pct ≥ 70 then C_ORANGE else C_RED
  let fb_applicable := fb.applicable.getD true
  -- week comparison (lines 511-537)
  let w1_pct := if w1_max = 0 then 0 else w1_total / w1_max * 100
  let delta := total - w1_total
  let delta_s := if delta ≥ 0 then "+" ++ toString delta else toString delta
  let cmp : CmpData :=
    ⟨wh.week1_score.getD 0, wh.score.getD 0,
     fq.week1_score.getD 0, fq.score.getD 0,
     fb.week1_score.getD 0,
     if ¬fb_applicable then "0/30 N/A" else toString (fb.score.getD 0) ++ "/30",
     rc.score.getD 0,
     w1_total, w1_max, w1_pct, total, max_pts, pct, delta_s ++ " pts"⟩
  [ .title name.toUpper,
    .subtitle week,
    .execBanner total max_pts pct status_text banner_color,
    .cards (card1 data) (card2 data) (card3 data) (card4 data),
    .heading "WEEK-OVER-WEEK COMPARISON" C_DARK,
    .cmpTable cmp,
    .heading "KEY INSIGHTS" C_DARK,
    .insightsBox (data.strengths.getD []) (data.weaknesses.getD []) ]

/-- Page 2 (lines 562-664): working hours and form quality. -/
def page2 (data : PerformanceRecord) : List El :=
  let wh := whOf data
  let fq := fqOf data
  let fq_score := fq.score.getD 0
  let fq_color := if fq_score ≥ 8 then C_GREEN else if fq_score ≥ 5 then C_ORANGE else C_RED
  [ .pageBreak,
    .heading "DETAILED PERFORMANCE BREAKDOWN" C_DARK,
    .heading "1. WORKING HOURS" C_DARK,
    .daysTable ((wh.days.getD []).map mkDayRow),
    .whAnalysis (wh.score.getD 0) (wh.week1_score.getD 0),
    .fqHeading fq_score fq_color ]
  ++ (if fq_score < 5 then [.bannerEl .criticalDoc C_RED] else [])
  ++ [.examplesHeader]
  ++ (List.enumFrom 1 (fq.examples.getD [])).map (mkExampleBlock fq_color)

/-- Page 3 (lines 666-755): customer feedback and repeat calls.
The division (total+21)/(max_pts+30) of line 679 appears here as the total
rational division (it only computes the payload of the inapplicable box);
its ZeroDivisionError behaviour — Python raises when max_pts + 30 == 0 —
is captured at function level by `generate_report_pdf_run` below, which
guards exactly this one fallible operation. -/
def page3 (data : PerformanceRecord) : List El :=
  let fb := fbOf data
  let rc := rcOf data
  let total := data.total_score.getD 0
  let max_pts := data.max_possible.getD 100
  let fb_applicable := fb.applicable.getD true
  let rc_score := rc.score.getD 0
  let rc_color := if rc_score = 30 then C_GREEN else C_RED
  let ratings := fb.ratings.getD []
  let rc_calls := rc.calls.getD []
  [ .pageBreak,
    .heading "3. CUSTOMER FEEDBACK" C_DARK ]
  ++ (if ¬fb_applicable then
        [ .bannerEl .noFeedback C_ORANGE,
          .inapplicableBox total max_pts (total + 21) (max_pts + 30)
            ((total + 21) / (max_pts + 30) * 100) ]
      else if ratings ≠ [] then [.fbTable (ratings.map mkFbRow)] else [])
  ++ [.rcHeading rc_score rc_color]
  ++ (if rc_score = 30 then
        [ .bannerEl .zeroRepeat C_GREEN, .zeroRepeatInfoBox ]
      else
        [.bannerEl (.repeatCount (rc.count.getD 0)) C_RED]
        ++ (if rc_calls ≠ [] then [.rcTable (rc_calls.map mkRcRow)] else []))

/-- `generate_report_pdf` (Tanmay_Mondal.py lines 394-759): the full
document, as the ordered list of flowables appended to `els`. -/
def generate_report_pdf (data : PerformanceRecord) : List El :=
  page1 data ++ page2 data ++ page3 data

/-- A Python exception raised inside `generate_report_pdf`. -/
inductive RenderError where
  /-- ZeroDivisionError from `(total+21)/(max_pts+30)*100` at line 679 -/
  | zeroDivisionError
deriving DecidableEq

/-- Running `generate_report_pdf` with its one fallible operation made
explicit.  On the records of this model (integer sub-scores — the only
values the integer-only `%+d` format specifiers of lines 520, 524 and 620
accept — and rational rollups) every operation of the source is total
except the division `(total+21)/(max_pts+30)` at line 679: it is evaluated
exactly when feedback is not applicable (line 671) and raises
ZeroDivisionError when `max_pts + 30 == 0`, i.e. when the stored
max_possible is -30; the `w1_pct` division at line 511 is guarded by the
source's own truthiness check on `w1_max`.  The function raises before
`doc.build`, so no document is produced on the error path. -/
def generate_report_pdf_run (data : PerformanceRecord) :
    Except RenderError (List El) :=
  let fb := fbOf data
  let max_pts := data.max_possible.getD 100
  if ¬fb.applicable.getD true ∧ max_pts + 30 = 0 then .error .zeroDivisionError
  else .ok (generate_report_pdf data)

/-! ## Batch driver

`main` of run_reports.py.  The process-level inputs are the command-line
arguments after the program name (each already passed through `int(...)`,
modelled as `Option Int`: `none` when `int` raises ValueError) and the
directory listing.  Job execution is abstracted by `outcome : String →
Bool` saying whether `subprocess.run(..., check=True)` succeeds for a
script; the result records the process exit code and, in order, each
executed script with its outcome. -/

/-- Python list slicing `xs[a:b]` (step 1): clamp an index. -/
def pySliceIdx (len : Nat) (i : Int) : Nat :=
  if i < 0 then (len + i).toNat else min i.toNat len

/-- Python list slicing `xs[a:b]` (step 1). -/
def pySlice {α : Type} (xs : List α) (a b : Int) : List α :=
  (xs.take (pySliceIdx xs.length b)).drop (pySliceIdx xs.length a)

/-- `sorted(...)` on the filtered listing: all `.py` files except
run_reports.py itself, in lexicographic name order. -/
def all_scripts (listing : List String) : List String :=
  List.insertionSort (fun a b => a ≤ b)
    (listing.filter (fun f => f.endsWith ".py" && f ≠ "run_reports.py"))

structure BatchResult where
  exitCode : Nat
  log : List (String × Bool)
deriving DecidableEq

/-- `main` of run_reports.py.  `argv` are the arguments after the program
name, each parsed with `int(...)`. -/
def run_reports_main (argv : List (Option Int)) (listing : List String)
    (outcome : String → Bool) : BatchResult :=
  match argv with
  | [] => ⟨1, []⟩            -- len(sys.argv) < 3: usage message, sys.exit(1)
  | [_] => ⟨1, []⟩
  | a :: b :: _ =>
    match a with
    | none => ⟨1, []⟩        -- int(sys.argv[1]) raised ValueError: exit 1
    | some start_idx =>
      match b with
      | none => ⟨1, []⟩      -- int(sys.argv[2]) raised ValueError: exit 1
      | some end_idx =>
        let batch := pySlice (all_scripts listing) start_idx end_idx
        -- per-job CalledProcessError is caught and logged; the loop
        -- continues and the process exits 0 either way
        ⟨0, batch.map (fun s => (s, outcome s))⟩

/-! ## Multi-recipient delivery

`main` of engineer_working_hour.py (lines 237-278): upload the exported
file once, then send the template message to every configured recipient
with the same media id, counting successes and failures and continuing
past a failed send. -/

structure DeliveryResult where
  /-- number of `wa_upload_media` calls made -/
  uploads : Nat
  /-- each attempted send, in order: (recipient, media id used) -/
  sends : List (String × String)
  successful : Nat
  failed : Nat
deriving DecidableEq

/-- The per-recipient send loop (lines 257-274).  `sendOk to` tells
whether `wa_send_template_with_document` succeeds for a recipient. -/
def sendLoop (media_id : String) (sendOk : String → Bool) :
    List String → List (String × String) × Nat × Nat
  | [] => ([], 0, 0)
  | dst :: rest =>
    let r := sendLoop media_id sendOk rest
    if sendOk dst then ((dst, media_id) :: r.1, r.2.1 + 1, r.2.2)
    else ((dst, media_id) :: r.1, r.2.1, r.2.2 + 1)

/-- `main` of engineer_working_hour.py: one upload, then the send loop
over the configured recipient list. -/
def engineer_working_hour_main (media_id : String) (to_numbers : List String)
    (sendOk : String → Bool) : DeliveryResult :=
  let r := sendLoop media_id sendOk to_numbers
  ⟨1, r.1, r.2.1, r.2.2⟩

/-! ## Reading data back out of the rendered document

Each observer below collects, in document order, the payloads of all
elements of one kind; a claim about what the renderer "shows" becomes an
equation about the resulting list (so uniqueness — "the only place" — is
part of the statement). -/

/-- Payload (total, max, pct) of an executive-summary banner. -/
def execBannerOf : El → Option (ℚ × ℚ × ℚ)
  | .execBanner t m p _ _ => some (t, m, p)
  | _ => none

/-- All executive-summary banners of a document. -/
def execBanners (out : List El) : List (ℚ × ℚ × ℚ) :=
  out.filterMap execBannerOf

/-- Percentage figure of a week-over-week comparison table. -/
def cmpPctOf : El → Option ℚ
  | .cmpTable d => some d.pct
  | _ => none

/-- Percentage figures of all week-over-week comparison tables. -/
def cmpPcts (out : List El) : List ℚ :=
  out.filterMap cmpPctOf

/-- The four metric cards of a cards element. -/
def cardsOf : El → Option (Card × Card × Card × Card)
  | .cards c1 c2 c3 c4 => some (c1, c2, c3, c4)
  | _ => none

/-- All cards elements of a document. -/
def cardsList (out : List El) : List (Card × Card × Card × Card) :=
  out.filterMap cardsOf

/-- Text and colour of a fixed-text heading element. -/
def headingOf : El → Option (String × String)
  | .heading t c => some (t, c)
  | _ => none

/-- All fixed-text headings of a document. -/
def headings (out : List El) : List (String × String) :=
  out.filterMap headingOf

/-- Rows of a working-hours day table. -/
def daysTableOf : El → Option (List DayRow)
  | .daysTable rows => some rows
  | _ => none

/-- All working-hours day tables of a document. -/
def daysTables (out : List El) : List (List DayRow) :=
  out.filterMap daysTableOf

/-- Score and colour of a form-quality section heading. -/
def fqHeadingOf : El → Option (Int × String)
  | .fqHeading s c => some (s, c)
  | _ => none

/-- All form-quality section headings of a document. -/
def fqHeadings (out : List El) : List (Int × String) :=
  out.filterMap fqHeadingOf

/-- Score and colour of a repeat-calls section heading. -/
def rcHeadingOf : El → Option (Int × String)
  | .rcHeading s c => some (s, c)
  | _ => none

/-- All repeat-calls section headings of a document. -/
def rcHeadings (out : List El) : List (Int × String) :=
  out.filterMap rcHeadingOf

/-- Colour of a critical-documentation banner, if this element is one. -/
def criticalBannerOf : El → Option String
  | .bannerEl .criticalDoc c => some c
  | _ => none

/-- All critical-documentation banners of a document (their colours). -/
def criticalBanners (out : List El) : List String :=
  out.filterMap criticalBannerOf

/-- Colour of a zero-repeat-calls success banner, if this element is one. -/
def zeroRepeatBannerOf : El → Option String
  | .bannerEl .zeroRepeat c => some c
  | _ => none

/-- All zero-repeat-calls success banners of a document (their colours). -/
def zeroRepeatBanners (out : List El) : List String :=
  out.filterMap zeroRepeatBannerOf

/-- Count and colour of a repeat-count banner, if this element is one. -/
def repeatCountBannerOf : El → Option (ℚ × String)
  | .bannerEl (.repeatCount n) c => some (n, c)
  | _ => none

/-- All repeat-count banners of a document. -/
def repeatCountBanners (out : List El) : List (ℚ × String) :=
  out.filterMap repeatCountBannerOf

/-- Rows of a repeat-calls incident table, if this element is one. -/
def rcTableOf : El → Option (List RcRow)
  | .rcTable rows => some rows
  | _ => none

/-- All repeat-calls incident tables of a document. -/
def rcTables (out : List El) : List (List RcRow) :=
  out.filterMap rcTableOf

/-- Payload of a feedback not-applicable box, if this element is one. -/
def inapplicableBoxOf : El → Option (ℚ × ℚ × ℚ × ℚ × ℚ)
  | .inapplicableBox t m wt wm wp => some (t, m, wt, wm, wp)
  | _ => none

/-- All feedback not-applicable boxes of a document. -/
def inapplicableBoxes (out : List El) : List (ℚ × ℚ × ℚ × ℚ × ℚ) :=
  out.filterMap inapplicableBoxOf

/-! ### Concrete records used to separate stored and recomputed values -/

/-- The record with every field absent. -/
def emptyRecord : PerformanceRecord :=
  ⟨none, none, none, none, none, none, none, none, none, none, none, none, none⟩

/-- A record whose stored percentage field (99) disagrees with
total/max*100 = 50/100*100 = 50. -/
def recStalePct : PerformanceRecord :=
  { emptyRecord with
    total_score := some 50, max_possible := some 100, percentage := some 99 }

/-- A record whose repeat-calls score equals its max_score field (25 = 25)
but is not the literal 30, with a zero count and no incidents. -/
def recPerfect25 : PerformanceRecord :=
  { emptyRecord with
    repeat_calls := some ⟨some 25, some 25, some 0, some []⟩ }

/-- A record with feedback marked not applicable but a stored max_possible
of 100 and a stored percentage of 50. -/
def recNoFeedback100 : PerformanceRecord :=
  { emptyRecord with
    feedback := some ⟨some 0, some 30, some false, none, none, none⟩,
    total_score := some 50, max_possible := some 100, percentage := some 50 }

/-- A record with a form-quality score of 6 (between 5 and 8). -/
def recFq6 : PerformanceRecord :=
  { emptyRecord with
    form_quality := some ⟨some 6, some 20, none, none, none⟩ }

/-- A well-typed record with feedback not applicable and a stored
max_possible of -30, making the denominator of line 679 zero. -/
def recDivZero : PerformanceRecord :=
  { emptyRecord with
    feedback := some ⟨some 0, some 30, some false, none, none, none⟩,
    max_possible := some (-30) }

/-! ### Where each element kind occurs

One lemma per observer and page, then the document-level characterization.
The page-1 facts are definitional; the page-2/page-3 facts case on the
conditionally emitted segments. -/

theorem execBanners_page1 (r : PerformanceRecord) :
    execBanners (page1 r) =
      [(r.total_score.getD 0, r.max_possible.getD 100, r.percentage.getD 0)] := rfl

theorem execBanners_page2 (r : PerformanceRecord) : execBanners (page2 r) = [] := by
  simp [page2, execBanners, execBannerOf, List.filterMap_append, mkExampleBlock,
    apply_ite (List.filterMap execBannerOf)]

theorem execBanners_page3 (r : PerformanceRecord) : execBanners (page3 r) = [] := by
  simp [page3, execBanners, execBannerOf, List.filterMap_append,
    apply_ite (List.filterMap execBannerOf)]

/-- The executive-summary banner appears exactly once, and its figures are
the record's stored rollup fields with the source's defaults. -/
theorem execBanners_doc (r : PerformanceRecord) :
    execBanners (generate_report_pdf r) =
      [(r.total_score.getD 0, r.max_possible.getD 100, r.percentage.getD 0)] := by
  unfold generate_report_pdf execBanners
  simp only [List.filterMap_append]
  rw [show (page1 r).filterMap execBannerOf = execBanners (page1 r) from rfl,
    show (page2 r).filterMap execBannerOf = execBanners (page2 r) from rfl,
    show (page3 r).filterMap execBannerOf = execBanners (page3 r) from rfl,
    execBanners_page1, execBanners_page2, execBanners_page3]
  rfl

theorem cmpPcts_page1 (r : PerformanceRecord) :
    cmpPcts (page1 r) = [r.percentage.getD 0] := rfl

theorem cmpPcts_page2 (r : PerformanceRecord) : cmpPcts (page2 r) = [] := by
  simp [page2, cmpPcts, cmpPctOf, List.filterMap_append, mkExampleBlock,
    apply_ite (List.filterMap cmpPctOf)]

theorem cmpPcts_page3 (r : PerformanceRecord) : cmpPcts (page3 r) = [] := by
  simp [page3, cmpPcts, cmpPctOf, List.filterMap_append,
    apply_ite (List.filterMap cmpPctOf)]

/-- The comparison table appears exactly once and its TOTAL-row percentage
is the record's stored percentage field. -/
theorem cmpPcts_doc (r : PerformanceRecord) :
    cmpPcts (generate_report_pdf r) = [r.percentage.getD 0] := by
  unfold generate_report_pdf cmpPcts
  simp only [List.filterMap_append]
  rw [show (page1 r).filterMap cmpPctOf = cmpPcts (page1 r) from rfl,
    show (page2 r).filterMap cmpPctOf = cmpPcts (page2 r) from rfl,
    show (page3 r).filterMap cmpPctOf = cmpPcts (page3 r) from rfl,
    cmpPcts_page1, cmpPcts_page2, cmpPcts_page3]
  rfl

theorem cardsList_page1 (r : PerformanceRecord) :
    cardsList (page1 r) = [(card1 r, card2 r, card3 r, card4 r)] := rfl

theorem cardsList_page2 (r : PerformanceRecord) : cardsList (page2 r) = [] := by
  simp [page2, cardsList, cardsOf, List.filterMap_append, mkExampleBlock,
    apply_ite (List.filterMap cardsOf)]

theorem cardsList_page3 (r : PerformanceRecord) : cardsList (page3 r) = [] := by
  simp [page3, cardsList, cardsOf, List.filterMap_append,
    apply_ite (List.filterMap cardsOf)]

/-- The four metric cards appear exactly once. -/
theorem cardsList_doc (r : PerformanceRecord) :
    cardsList (generate_report_pdf r) = [(card1 r, card2 r, card3 r, card4 r)] := by
  unfold generate_report_pdf cardsList
  simp only [List.filterMap_append]
  rw [show (page1 r).filterMap cardsOf = cardsList (page1 r) from rfl,
    show (page2 r).filterMap cardsOf = cardsList (page2 r) from rfl,
    show (page3 r).filterMap cardsOf = cardsList (page3 r) from rfl,
    cardsList_page1, cardsList_page2, cardsList_page3]
  rfl

theorem headings_page1 (r : PerformanceRecord) :
    headings (page1 r) =
      [("WEEK-OVER-WEEK COMPARISON", C_DARK), ("KEY INSIGHTS", C_DARK)] := rfl

theorem headings_page2 (r : PerformanceRecord) :
    headings (page2 r) =
      [("DETAILED PERFORMANCE BREAKDOWN", C_DARK), ("1. WORKING HOURS", C_DARK)] := by
  simp [page2, headings, headingOf, List.filterMap_append, mkExampleBlock,
    apply_ite (List.filterMap headingOf)]

theorem headings_page3 (r : PerformanceRecord) :
    headings (page3 r) = [("3. CUSTOMER FEEDBACK", C_DARK)] := by
  simp [page3, headings, headingOf, List.filterMap_append,
    apply_ite (List.filterMap headingOf)]

/-- The fixed-text headings of every rendered document, in order. -/
theorem headings_doc (r : PerformanceRecord) :
    headings (generate_report_pdf r) =
      [("WEEK-OVER-WEEK COMPARISON", C_DARK), ("KEY INSIGHTS", C_DARK),
       ("DETAILED PERFORMANCE BREAKDOWN", C_DARK), ("1. WORKING HOURS", C_DARK),
       ("3. CUSTOMER FEEDBACK", C_DARK)] := by
  unfold generate_report_pdf headings
  simp only [List.filterMap_append]
  rw [show (page1 r).filterMap headingOf = headings (page1 r) from rfl,
    show (page2 r).filterMap headingOf = headings (page2 r) from rfl,
    show (page3 r).filterMap headingOf = headings (page3 r) from rfl,
    headings_page1, headings_page2, headings_page3]
  rfl

theorem daysTables_page1 (r : PerformanceRecord) : daysTables (page1 r) = [] := rfl

theorem daysTables_page2 (r : PerformanceRecord) :
    daysTables (page2 r) = [((whOf r).days.getD []).map mkDayRow] := by
  simp [page2, daysTables, daysTableOf, List.filterMap_append, mkExampleBlock,
    apply_ite (List.filterMap daysTableOf)]

theorem daysTables_page3 (r : PerformanceRecord) : daysTables (page3 r) = [] := by
  simp [page3, daysTables, daysTableOf, List.filterMap_append,
    apply_ite (List.filterMap daysTableOf)]

/-- The working-hours day table appears exactly once, with one row per day
entry (an empty or missing days list gives an empty table, not a crash). -/
theorem daysTables_doc (r : PerformanceRecord) :
    daysTables (generate_report_pdf r) = [((whOf r).days.getD []).map mkDayRow] := by
  unfold generate_report_pdf daysTables
  simp only [List.filterMap_append]
  rw [show (page1 r).filterMap daysTableOf = daysTables (page1 r) from rfl,
    show (page2 r).filterMap daysTableOf = daysTables (page2 r) from rfl,
    show (page3 r).filterMap daysTableOf = daysTables (page3 r) from rfl,
    daysTables_page1, daysTables_page2, daysTables_page3]
  rfl

theorem fqHeadings_page1 (r : PerformanceRecord) : fqHeadings (page1 r) = [] := rfl

theorem fqHeadings_page2 (r : PerformanceRecord) :
    fqHeadings (page2 r) =
      [((fqOf r).score.getD 0,
        if (fqOf r).score.getD 0 ≥ 8 then C_GREEN
        else if (fqOf r).score.getD 0 ≥ 5 then C_ORANGE else C_RED)] := by
  simp [page2, fqHeadings, fqHeadingOf, List.filterMap_append, mkExampleBlock,
    apply_ite (List.filterMap fqHeadingOf)]

theorem fqHeadings_page3 (r : PerformanceRecord) : fqHeadings (page3 r) = [] := by
  simp [page3, fqHeadings, fqHeadingOf, List.filterMap_append,
    apply_ite (List.filterMap fqHeadingOf)]

/-- The form-quality heading appears exactly once, coloured by the
three-tier threshold scheme of line 627. -/
theorem fqHeadings_doc (r : PerformanceRecord) :
    fqHeadings (generate_report_pdf r) =
      [((fqOf r).score.getD 0,
        if (fqOf r).score.getD 0 ≥ 8 then C_GREEN
        else if (fqOf r).score.getD 0 ≥ 5 then C_ORANGE else C_RED)] := by
  unfold generate_report_pdf fqHeadings
  simp only [List.filterMap_append]
  rw [show (page1 r).filterMap fqHeadingOf = fqHeadings (page1 r) from rfl,
    show (page2 r).filterMap fqHeadingOf = fqHeadings (page2 r) from rfl,
    show (page3 r).filterMap fqHeadingOf = fqHeadings (page3 r) from rfl,
    fqHeadings_page1, fqHeadings_page2, fqHeadings_page3]
  rfl

theorem rcHeadings_page1 (r : PerformanceRecord) : rcHeadings (page1 r) = [] := rfl

theorem rcHeadings_page2 (r : PerformanceRecord) : rcHeadings (page2 r) = [] := by
  simp [page2, rcHeadings, rcHeadingOf, List.filterMap_append, mkExampleBlock,
    apply_ite (List.filterMap rcHeadingOf)]

theorem rcHeadings_page3 (r : PerformanceRecord) :
    rcHeadings (page3 r) =
      [((rcOf r).score.getD 0,
        if (rcOf r).score.getD 0 = 30 then C_GREEN else C_RED)] := by
  simp [page3, rcHeadings, rcHeadingOf, List.filterMap_append,
    apply_ite (List.filterMap rcHeadingOf)]

/-- The repeat-calls heading appears exactly once, green exactly at the
literal score 30. -/
theorem rcHeadings_doc (r : PerformanceRecord) :
    rcHeadings (generate_report_pdf r) =
      [((rcOf r).score.getD 0,
        if (rcOf r).score.getD 0 = 30 then C_GREEN else C_RED)] := by
  unfold generate_report_pdf rcHeadings
  simp only [List.filterMap_append]
  rw [show (page1 r).filterMap rcHeadingOf = rcHeadings (page1 r) from rfl,
    show (page2 r).filterMap rcHeadingOf = rcHeadings (page2 r) from rfl,
    show (page3 r).filterMap rcHeadingOf = rcHeadings (page3 r) from rfl,
    rcHeadings_page1, rcHeadings_page2, rcHeadings_page3]
  rfl

theorem criticalBanners_page1 (r : PerformanceRecord) :
    criticalBanners (page1 r) = [] := rfl

theorem criticalBanners_page2 (r : PerformanceRecord) :
    criticalBanners (page2 r) =
      (if (fqOf r).score.getD 0 < 5 then [C_RED] else []) := by
  simp [page2, criticalBanners, criticalBannerOf, List.filterMap_append, mkExampleBlock,
    apply_ite (List.filterMap criticalBannerOf)]

theorem criticalBanners_page3 (r : PerformanceRecord) :
    criticalBanners (page3 r) = [] := by
  simp [page3, criticalBanners, criticalBannerOf, List.filterMap_append,
    apply_ite (List.filterMap criticalBannerOf)]

/-- The critical-documentation banner appears exactly when the
form-quality score is below 5, and nowhere else. -/
theorem criticalBanners_doc (r : PerformanceRecord) :
    criticalBanners (generate_report_pdf r) =
      (if (fqOf r).score.getD 0 < 5 then [C_RED] else []) := by
  unfold generate_report_pdf criticalBanners
  simp only [List.filterMap_append]
  rw [show (page1 r).filterMap criticalBannerOf = criticalBanners (page1 r) from rfl,
    show (page2 r).filterMap criticalBannerOf = criticalBanners (page2 r) from rfl,
    show (page3 r).filterMap criticalBannerOf = criticalBanners (page3 r) from rfl,
    criticalBanners_page1, criticalBanners_page2, criticalBanners_page3]
  simp

theorem zeroRepeatBanners_page1 (r : PerformanceRecord) :
    zeroRepeatBanners (page1 r) = [] := rfl

theorem zeroRepeatBanners_page2 (r : PerformanceRecord) :
    zeroRepeatBanners (page2 r) = [] := by
  simp [page2, zeroRepeatBanners, zeroRepeatBannerOf, List.filterMap_append,
    mkExampleBlock, apply_ite (List.filterMap zeroRepeatBannerOf)]

theorem zeroRepeatBanners_page3 (r : PerformanceRecord) :
    zeroRepeatBanners (page3 r) =
      (if (rcOf r).score.getD 0 = 30 then [C_GREEN] else []) := by
  simp [page3, zeroRepeatBanners, zeroRepeatBannerOf, List.filterMap_append,
    apply_ite (List.filterMap zeroRepeatBannerOf)]

/-- The "ZERO REPEAT CALLS" success banner appears exactly when the
repeat-calls score is the literal 30, and nowhere else. -/
theorem zeroRepeatBanners_doc (r : PerformanceRecord) :
    zeroRepeatBanners (generate_report_pdf r) =
      (if (rcOf r).score.getD 0 = 30 then [C_GREEN] else []) := by
  unfold generate_report_pdf zeroRepeatBanners
  simp only [List.filterMap_append]
  rw [show (page1 r).filterMap zeroRepeatBannerOf = zeroRepeatBanners (page1 r) from rfl,
    show (page2 r).filterMap zeroRepeatBannerOf = zeroRepeatBanners (page2 r) from rfl,
    show (page3 r).filterMap zeroRepeatBannerOf = zeroRepeatBanners (page3 r) from rfl,
    zeroRepeatBanners_page1, zeroRepeatBanners_page2, zeroRepeatBanners_page3]
  rfl

theorem repeatCountBanners_page1 (r : PerformanceRecord) :
    repeatCountBanners (page1 r) = [] := rfl

theorem repeatCountBanners_page2 (r : PerformanceRecord) :
    repeatCountBanners (page2 r) = [] := by
  simp [page2, repeatCountBanners, repeatCountBannerOf, List.filterMap_append,
    mkExampleBlock, apply_ite (List.filterMap repeatCountBannerOf)]

theorem repeatCountBanners_page3 (r : PerformanceRecord) :
    repeatCountBanners (page3 r) =
      (if (rcOf r).score.getD 0 = 30 then []
       else [((rcOf r).count.getD 0, C_RED)]) := by
  simp [page3, repeatCountBanners, repeatCountBannerOf, List.filterMap_append,
    apply_ite (List.filterMap repeatCountBannerOf)]

/-- The red repeat-count banner appears, carrying the record's literal
count field, exactly when the repeat-calls score is not 30. -/
theorem repeatCountBanners_doc (r : PerformanceRecord) :
    repeatCountBanners (generate_report_pdf r) =
      (if (rcOf r).score.getD 0 = 30 then []
       else [((rcOf r).count.getD 0, C_RED)]) := by
  unfold generate_report_pdf repeatCountBanners
  simp only [List.filterMap_append]
  rw [show (page1 r).filterMap repeatCountBannerOf = repeatCountBanners (page1 r) from rfl,
    show (page2 r).filterMap repeatCountBannerOf = repeatCountBanners (page2 r) from rfl,
    show (page3 r).filterMap repeatCountBannerOf = repeatCountBanners (page3 r) from rfl,
    repeatCountBanners_page1, repeatCountBanners_page2, repeatCountBanners_page3]
  rfl

theorem rcTables_page1 (r : PerformanceRecord) : rcTables (page1 r) = [] := rfl

theorem rcTables_page2 (r : PerformanceRecord) : rcTables (page2 r) = [] := by
  simp [page2, rcTables, rcTableOf, List.filterMap_append, mkExampleBlock,
    apply_ite (List.filterMap rcTableOf)]

theorem rcTables_page3 (r : PerformanceRecord) :
    rcTables (page3 r) =
      (if (rcOf r).score.getD 0 = 30 then []
       else if (rcOf r).calls.getD [] = [] then []
       else [((rcOf r).calls.getD []).map mkRcRow]) := by
  simp [page3, rcTables, rcTableOf, List.filterMap_append,
    apply_ite (List.filterMap rcTableOf)]

/-- The repeat-calls incident table appears exactly when the score is not
30 and the calls list is non-empty. -/
theorem rcTables_doc (r : PerformanceRecord) :
    rcTables (generate_report_pdf r) =
      (if (rcOf r).score.getD 0 = 30 then []
       else if (rcOf r).calls.getD [] = [] then []
       else [((rcOf r).calls.getD []).map mkRcRow]) := by
  unfold generate_report_pdf rcTables
  simp only [List.filterMap_append]
  rw [show (page1 r).filterMap rcTableOf = rcTables (page1 r) from rfl,
    show (page2 r).filterMap rcTableOf = rcTables (page2 r) from rfl,
    show (page3 r).filterMap rcTableOf = rcTables (page3 r) from rfl,
    rcTables_page1, rcTables_page2, rcTables_page3]
  rfl

theorem inapplicableBoxes_page1 (r : PerformanceRecord) :
    inapplicableBoxes (page1 r) = [] := rfl

theorem inapplicableBoxes_page2 (r : PerformanceRecord) :
    inapplicableBoxes (page2 r) = [] := by
  simp [page2, inapplicableBoxes, inapplicableBoxOf, List.filterMap_append,
    mkExampleBlock, apply_ite (List.filterMap inapplicableBoxOf)]

theorem inapplicableBoxes_page3 (r : PerformanceRecord) :
    inapplicableBoxes (page3 r) =
      (if (fbOf r).applicable.getD true then []
       else [(r.total_score.getD 0, r.max_possible.getD 100,
              r.total_score.getD 0 + 21, r.max_possible.getD 100 + 30,
              (r.total_score.getD 0 + 21) / (r.max_possible.getD 100 + 30) * 100)]) := by
  cases hfb : (fbOf r).applicable.getD true <;>
    simp [page3, hfb, inapplicableBoxes, inapplicableBoxOf, List.filterMap_append,
      apply_ite (List.filterMap inapplicableBoxOf)]

/-- The "would-be" adjusted-percentage note appears exactly when feedback
is marked not applicable, with the figures computed by lines 674-683, and
nowhere else in the document. -/
theorem inapplicableBoxes_doc (r : PerformanceRecord) :
    inapplicableBoxes (generate_report_pdf r) =
      (if (fbOf r).applicable.getD true then []
       else [(r.total_score.getD 0, r.max_possible.getD 100,
              r.total_score.getD 0 + 21, r.max_possible.getD 100 + 30,
              (r.total_score.getD 0 + 21) / (r.max_possible.getD 100 + 30) * 100)]) := by
  unfold generate_report_pdf inapplicableBoxes
  simp only [List.filterMap_append]
  rw [show (page1 r).filterMap inapplicableBoxOf = inapplicableBoxes (page1 r) from rfl,
    show (page2 r).filterMap inapplicableBoxOf = inapplicableBoxes (page2 r) from rfl,
    show (page3 r).filterMap inapplicableBoxOf = inapplicableBoxes (page3 r) from rfl,
    inapplicableBoxes_page1, inapplicableBoxes_page2, inapplicableBoxes_page3]
  simp

/-! ## Helper lemmas for the retry loops -/

/-- A retryable failure before the last attempt moves the Dipu loop to the
next attempt. -/
theorem dipuLoop_step (responses : Nat → TokenResponse) (attempt fuel : Nat)
    (hlt : attempt < 4) (hr : retryableDipu (responses attempt)) :
    dipuLoop responses attempt (fuel + 1) = dipuLoop responses (attempt + 1) fuel := by
  rcases hr with h | h <;> simp [dipuLoop, h, hlt]

/-- A rate-limit failure before the last attempt moves the Tanmay loop to
the next attempt. -/
theorem tanmayLoop_step (responses : Nat → TokenResponse) (attempt fuel : Nat)
    (hlt : attempt < 4) (hr : retryableTanmay (responses attempt)) :
    tanmayLoop responses attempt (fuel + 1) = tanmayLoop responses (attempt + 1) fuel := by
  simp only [retryableTanmay] at hr
  simp [tanmayLoop, hr, hlt]

/-- A 200 response with a missing or empty token field makes the Tanmay
loop raise ValueError at once. -/
theorem tanmayLoop_badToken (responses : Nat → TokenResponse) (attempt fuel : Nat)
    (tok : Option String) (h : responses attempt = .success tok)
    (hbad : tok = none ∨ tok = some "") :
    tanmayLoop responses attempt (fuel + 1) = (.raisedValueError, attempt + 1) := by
  rcases hbad with hb | hb <;> subst hb <;> simp [tanmayLoop, h]

/-- A 200 response makes the Dipu loop return at once: the token when the
field is present (even empty), KeyError when it is absent. -/
theorem dipuLoop_success (responses : Nat → TokenResponse) (attempt fuel : Nat)
    (tok : Option String) (h : responses attempt = .success tok) :
    dipuLoop responses attempt (fuel + 1) = (tokenOutcome tok, attempt + 1) := by
  cases tok <;> simp [dipuLoop, tokenOutcome, h]

/-- Reaching attempt `attempt + i` of the Tanmay loop through `i`
rate-limited attempts and then hitting a 200 response with a missing or
empty token raises ValueError after exactly `attempt + i + 1` calls. -/
theorem tanmayLoop_badToken_reached (responses : Nat → TokenResponse)
    (tok : Option String) (i : Nat) : ∀ attempt fuel : Nat, attempt + i ≤ 4 → i < fuel →
    (∀ j, j < i → retryableTanmay (responses (attempt + j))) →
    responses (attempt + i) = .success tok → (tok = none ∨ tok = some "") →
    tanmayLoop responses attempt fuel = (.raisedValueError, attempt + i + 1) := by
  induction i with
  | zero =>
    intro attempt fuel hle hfuel hpre hsucc hbad
    cases fuel with
    | zero => exact (Nat.lt_irrefl 0 hfuel).elim
    | succ f =>
      exact tanmayLoop_badToken responses attempt f tok (by simpa using hsucc) hbad
  | succ i ih =>
    intro attempt fuel hle hfuel hpre hsucc hbad
    cases fuel with
    | zero => exact (Nat.not_lt_zero _ hfuel).elim
    | succ f =>
      rw [tanmayLoop_step responses attempt f (by omega)
        (by simpa using hpre 0 (by omega))]
      have h2 : ∀ j, j < i → retryableTanmay (responses (attempt + 1 + j)) := by
        intro j hj
        have h3 := hpre (j + 1) (by omega)
        rwa [show attempt + (j + 1) = attempt + 1 + j by omega] at h3
      have h4 : responses (attempt + 1 + i) = .success tok := by
        rwa [show attempt + (i + 1) = attempt + 1 + i by omega] at hsucc
      rw [ih (attempt + 1) f (by omega) (by omega) h2 h4 hbad,
        show attempt + 1 + i + 1 = attempt + (i + 1) + 1 by omega]

/-- A transport failure makes the Tanmay loop raise at once: only
`requests.HTTPError` is caught there, so the RequestException propagates. -/
theorem tanmayLoop_transport (responses : Nat → TokenResponse) (attempt fuel : Nat)
    (h : responses attempt = .transportError) :
    tanmayLoop responses attempt (fuel + 1) = (.raisedTransport, attempt + 1) := by
  simp [tanmayLoop, h]

/-- Reaching attempt `attempt + i` of the Tanmay loop through `i`
rate-limited attempts and then hitting a transport failure surfaces that
failure after exactly `attempt + i + 1` calls. -/
theorem tanmayLoop_transport_reached (responses : Nat → TokenResponse)
    (i : Nat) : ∀ attempt fuel : Nat, attempt + i ≤ 4 → i < fuel →
    (∀ j, j < i → retryableTanmay (responses (attempt + j))) →
    responses (attempt + i) = .transportError →
    tanmayLoop responses attempt fuel = (.raisedTransport, attempt + i + 1) := by
  induction i with
  | zero =>
    intro attempt fuel hle hfuel hpre hsucc
    cases fuel with
    | zero => exact (Nat.lt_irrefl 0 hfuel).elim
    | succ f =>
      exact tanmayLoop_transport responses attempt f (by simpa using hsucc)
  | succ i ih =>
    intro attempt fuel hle hfuel hpre hsucc
    cases fuel with
    | zero => exact (Nat.not_lt_zero _ hfuel).elim
    | succ f =>
      rw [tanmayLoop_step responses attempt f (by omega)
        (by simpa using hpre 0 (by omega))]
      have h2 : ∀ j, j < i → retryableTanmay (responses (attempt + 1 + j)) := by
        intro j hj
        have h3 := hpre (j + 1) (by omega)
        rwa [show attempt + (j + 1) = attempt + 1 + j by omega] at h3
      have h4 : responses (attempt + 1 + i) = .transportError := by
        rwa [show attempt + (i + 1) = attempt + 1 + i by omega] at hsucc
      rw [ih (attempt + 1) f (by omega) (by omega) h2 h4,
        show attempt + 1 + i + 1 = attempt + (i + 1) + 1 by omega]

/-- Reaching attempt `attempt + i` of the Dipu loop through `i` retryable
failures and then hitting a 200 response returns at once: the token when
the field is present (even empty), KeyError when it is absent. -/
theorem dipuLoop_success_reached (responses : Nat → TokenResponse)
    (tok : Option String) (i : Nat) : ∀ attempt fuel : Nat, attempt + i ≤ 4 → i < fuel →
    (∀ j, j < i → retryableDipu (responses (attempt + j))) →
    responses (attempt + i) = .success tok →
    dipuLoop responses attempt fuel = (tokenOutcome tok, attempt + i + 1) := by
  induction i with
  | zero =>
    intro attempt fuel hle hfuel hpre hsucc
    cases fuel with
    | zero => exact (Nat.lt_irrefl 0 hfuel).elim
    | succ f =>
      exact dipuLoop_success responses attempt f tok (by simpa using hsucc)
  | succ i ih =>
    intro attempt fuel hle hfuel hpre hsucc
    cases fuel with
    | zero => exact (Nat.not_lt_zero _ hfuel).elim
    | succ f =>
      rw [dipuLoop_step responses attempt f (by omega)
        (by simpa using hpre 0 (by omega))]
      have h2 : ∀ j, j < i → retryableDipu (responses (attempt + 1 + j)) := by
        intro j hj
        have h3 := hpre (j + 1) (by omega)
        rwa [show attempt + (j + 1) = attempt + 1 + j by omega] at h3
      have h4 : responses (attempt + 1 + i) = .success tok := by
        rwa [show attempt + (i + 1) = attempt + 1 + i by omega] at hsucc
      rw [ih (attempt + 1) f (by omega) (by omega) h2 h4,
        show attempt + 1 + i + 1 = attempt + (i + 1) + 1 by omega]

/-- The send loop attempts every recipient with the given media id and
counts each attempt as exactly one success or one failure. -/
theorem sendLoop_spec (media_id : String) (sendOk : String → Bool) :
    ∀ l : List String,
      (sendLoop media_id sendOk l).1 = l.map (fun dst => (dst, media_id))
      ∧ (sendLoop media_id sendOk l).2.1 + (sendLoop media_id sendOk l).2.2 = l.length := by
  intro l
  induction l with
  | nil => exact ⟨rfl, rfl⟩
  | cons d l ih =>
    by_cases h : sendOk d = true <;>
      refine ⟨?_, ?_⟩ <;> simp [sendLoop, h, ih.1] <;> omega

/-! ## The claims -/

/-- C1: the polling loop indeed raises on any unexpected status without
fetching, and fetches after a completed status (here: 3 in-progress polls
then 1004 on the 4th, giving exactly 4 polls then the download); but a job
that is still in progress on all 120 polls does NOT raise a timeout: the
`for` loop is exhausted and the code falls through to the download request
(`.fetched 120`), contradicting the claimed fatal timeout distinct from a
job-reported failure. -/
theorem C1_exhausted_poll_budget_falls_through_to_fetch :
    zoho_bulk_export_pdf (fun _ => 1001) = .fetched 120
    ∧ zoho_bulk_export_pdf (fun i => if i < 3 then 1001 else 1004) = .fetched 4
    ∧ zoho_bulk_export_pdf (fun _ => 1005) = .failed 1005 1 := by
  refine ⟨by decide, by decide, by decide⟩

/-- C2 (amended): the percentage shown on the summary page — in the
executive-summary banner and in the comparison table's TOTAL row — is the
record's stored percentage field (0 when absent), not a freshly computed
total/max*100. -/
theorem C2_summary_percentage_is_stored_field (r : PerformanceRecord) :
    execBanners (generate_report_pdf r) =
      [(r.total_score.getD 0, r.max_possible.getD 100, r.percentage.getD 0)]
    ∧ cmpPcts (generate_report_pdf r) = [r.percentage.getD 0] :=
  ⟨execBanners_doc r, cmpPcts_doc r⟩

/-- C2 counterexample: on a record with total 50, max 100 and stored
percentage 99, the summary banner shows 99, while total/max*100 = 50 — the
claim that the shown percentage always equals total/max*100 is false. -/
theorem C2_counterexample :
    execBanners (generate_report_pdf recStalePct) = [(50, 100, 99)]
    ∧ recStalePct.total_score.getD 0 / recStalePct.max_possible.getD 100 * 100 = 50
    ∧ (99 : ℚ) ≠ 50 := by
  refine ⟨rfl, by norm_num [recStalePct, emptyRecord], by norm_num⟩

/-- C3 (amended): the two cited token retriers differ in their retryable
sets.  The Dipu/working-hours provider retries both transport failures and
the rate-limit status 400: when all five attempts fail with such errors it
makes exactly 5 calls and raises the 5th attempt's own error.  The Tanmay
provider catches only `requests.HTTPError`: five consecutive 400s likewise
give exactly 5 calls with the 5th error surfaced, but a transport failure
is not retried there — it propagates immediately, after exactly the
attempt on which it occurs. -/
theorem C3_retry_exhaustion_by_provider :
    (∀ responses : Nat → TokenResponse, (∀ i, i < 5 → retryableDipu (responses i)) →
      zoho_get_access_token responses = (errorRaised (responses 4), 5))
    ∧ (∀ responses : Nat → TokenResponse, (∀ i, i < 5 → retryableTanmay (responses i)) →
      get_zoho_access_token responses = (errorRaised (responses 4), 5))
    ∧ (∀ (responses : Nat → TokenResponse) (i : Nat), i ≤ 4 →
      (∀ j, j < i → retryableTanmay (responses j)) →
      responses i = .transportError →
      get_zoho_access_token responses = (.raisedTransport, i + 1)) := by
  refine ⟨?_, ?_, ?_⟩
  · intro responses h
    unfold zoho_get_access_token
    have e0 : dipuLoop responses 0 5 = dipuLoop responses 1 4 :=
      dipuLoop_step responses 0 4 (by norm_num) (h 0 (by norm_num))
    have e1 : dipuLoop responses 1 4 = dipuLoop responses 2 3 :=
      dipuLoop_step responses 1 3 (by norm_num) (h 1 (by norm_num))
    have e2 : dipuLoop responses 2 3 = dipuLoop responses 3 2 :=
      dipuLoop_step responses 2 2 (by norm_num) (h 2 (by norm_num))
    have e3 : dipuLoop responses 3 2 = dipuLoop responses 4 1 :=
      dipuLoop_step responses 3 1 (by norm_num) (h 3 (by norm_num))
    rw [e0, e1, e2, e3]
    rcases h 4 (by norm_num) with h4 | h4 <;> simp [dipuLoop, h4, errorRaised]
  · intro responses h
    unfold get_zoho_access_token
    have e0 : tanmayLoop responses 0 5 = tanmayLoop responses 1 4 :=
      tanmayLoop_step responses 0 4 (by norm_num) (h 0 (by norm_num))
    have e1 : tanmayLoop responses 1 4 = tanmayLoop responses 2 3 :=
      tanmayLoop_step responses 1 3 (by norm_num) (h 1 (by norm_num))
    have e2 : tanmayLoop responses 2 3 = tanmayLoop responses 3 2 :=
      tanmayLoop_step responses 2 2 (by norm_num) (h 2 (by norm_num))
    have e3 : tanmayLoop responses 3 2 = tanmayLoop responses 4 1 :=
      tanmayLoop_step responses 3 1 (by norm_num) (h 3 (by norm_num))
    rw [e0, e1, e2, e3]
    have h4 := h 4 (by norm_num)
    simp only [retryableTanmay] at h4
    simp [tanmayLoop, h4, errorRaised]
  · intro responses i hi hpre htr
    have h := tanmayLoop_transport_reached responses i 0 5 (by omega) (by omega)
      (by intro j hj; simpa using hpre j hj) (by simpa using htr)
    simpa [get_zoho_access_token] using h

/-- C3 witness: five transport failures exhaust the Dipu retrier (5 calls,
transport error surfaced); five rate-limit failures exhaust the Tanmay
retrier (5 calls, the 5th 400 surfaced); a first-attempt transport failure
in the Tanmay retrier propagates after exactly 1 call. -/
theorem C3_witness :
    zoho_get_access_token (fun _ => .transportError) = (.raisedTransport, 5)
    ∧ get_zoho_access_token (fun _ => .httpError 400) = (.raisedHttp 400, 5)
    ∧ get_zoho_access_token (fun _ => .transportError) = (.raisedTransport, 1) := by
  refine ⟨?_, ?_, ?_⟩
  · have h := C3_retry_exhaustion_by_provider.1 (fun _ => .transportError)
      (fun i _ => Or.inr rfl)
    simpa [errorRaised] using h
  · have h := C3_retry_exhaustion_by_provider.2.1 (fun _ => .httpError 400)
      (fun i _ => rfl)
    simpa [errorRaised] using h
  · exact C3_retry_exhaustion_by_provider.2.2 (fun _ => .transportError) 0 (by omega)
      (fun j hj => absurd hj (Nat.not_lt_zero j)) rfl

/-- C3 counterexample: in Tanmay_Mondal.py's get_zoho_access_token a
transport failure on the first attempt is not caught (only
requests.HTTPError is), so the wrapped operation is invoked exactly once —
not 5 times — refuting the claim for that cited implementation, whose
retryable-error definition includes transport failures. -/
theorem C3_counterexample :
    get_zoho_access_token (fun _ => .transportError) = (.raisedTransport, 1)
    ∧ (1 : Nat) ≠ 5 :=
  ⟨rfl, by decide⟩

/-- C5 (amended): after any run of retryable failures, a 200 response
without a usable token ends the exchange at once, with no further attempt:
the Tanmay provider raises ValueError for a missing or empty token field;
the Dipu provider raises KeyError when the field is missing, but when the
field is present and empty it returns the empty token string without any
error. -/
theorem C5_missing_token_ends_exchange_immediately :
    (∀ (responses : Nat → TokenResponse) (tok : Option String) (i : Nat), i ≤ 4 →
      (∀ j, j < i → retryableTanmay (responses j)) →
      responses i = .success tok → (tok = none ∨ tok = some "") →
      get_zoho_access_token responses = (.raisedValueError, i + 1))
    ∧ (∀ (responses : Nat → TokenResponse) (i : Nat), i ≤ 4 →
      (∀ j, j < i → retryableDipu (responses j)) →
      responses i = .success none →
      zoho_get_access_token responses = (.raisedKeyError, i + 1))
    ∧ (∀ (responses : Nat → TokenResponse) (i : Nat), i ≤ 4 →
      (∀ j, j < i → retryableDipu (responses j)) →
      responses i = .success (some "") →
      zoho_get_access_token responses = (.token "", i + 1)) := by
  refine ⟨?_, ?_, ?_⟩
  · intro responses tok i hi hpre hsucc hbad
    have h := tanmayLoop_badToken_reached responses tok i 0 5 (by omega) (by omega)
      (by intro j hj; simpa using hpre j hj) (by simpa using hsucc) hbad
    simpa [get_zoho_access_token] using h
  · intro responses i hi hpre hsucc
    have h := dipuLoop_success_reached responses none i 0 5 (by omega) (by omega)
      (by intro j hj; simpa using hpre j hj) (by simpa using hsucc)
    simpa [zoho_get_access_token, tokenOutcome] using h
  · intro responses i hi hpre hsucc
    have h := dipuLoop_success_reached responses (some "") i 0 5 (by omega) (by omega)
      (by intro j hj; simpa using hpre j hj) (by simpa using hsucc)
    simpa [zoho_get_access_token, tokenOutcome] using h

/-- C5 witness: a first-attempt 200 response with a missing token field
raises immediately in both providers (after exactly 1 call), and one with
an empty token string returns the empty token in the Dipu provider. -/
theorem C5_witness :
    get_zoho_access_token (fun _ => .success none) = (.raisedValueError, 1)
    ∧ zoho_get_access_token (fun _ => .success none) = (.raisedKeyError, 1)
    ∧ zoho_get_access_token (fun _ => .success (some "")) = (.token "", 1) :=
  ⟨C5_missing_token_ends_exchange_immediately.1 _ none 0 (by omega)
      (fun j hj => absurd hj (Nat.not_lt_zero j)) rfl (Or.inl rfl),
   C5_missing_token_ends_exchange_immediately.2.1 _ 0 (by omega)
      (fun j hj => absurd hj (Nat.not_lt_zero j)) rfl,
   C5_missing_token_ends_exchange_immediately.2.2 _ 0 (by omega)
      (fun j hj => absurd hj (Nat.not_lt_zero j)) rfl⟩

/-- C5 counterexample: the Dipu provider, on a 200 response whose
access_token field is present but empty, returns the empty token string
and raises no error at all — refuting the claim that every 200 response
without a non-empty token field raises a fatal error. -/
theorem C5_counterexample :
    (zoho_get_access_token (fun _ => .success (some ""))).1 = .token ""
    ∧ TokenResult.isError (zoho_get_access_token (fun _ => .success (some ""))).1
        = false :=
  ⟨rfl, rfl⟩

/-- C4 (amended): the "ZERO REPEAT CALLS" success banner (green) is
emitted iff the repeat-calls score equals the literal 30 — not the
record's max_score field; otherwise a red banner carrying the record's
literal count field is emitted, followed by the incident table exactly
when the calls list is non-empty; and the summary card reads "PERFECT" iff
the score equals 30. -/
theorem C4_repeat_calls_keyed_to_literal_30 (r : PerformanceRecord) :
    zeroRepeatBanners (generate_report_pdf r) =
      (if (rcOf r).score.getD 0 = 30 then [C_GREEN] else [])
    ∧ repeatCountBanners (generate_report_pdf r) =
      (if (rcOf r).score.getD 0 = 30 then [] else [((rcOf r).count.getD 0, C_RED)])
    ∧ rcTables (generate_report_pdf r) =
      (if (rcOf r).score.getD 0 = 30 then []
       else if (rcOf r).calls.getD [] = [] then []
       else [((rcOf r).calls.getD []).map mkRcRow])
    ∧ (card4 r).statusText =
      (if (rcOf r).score.getD 0 = 30 then "PERFECT" else "HAS REPEATS")
    ∧ cardsList (generate_report_pdf r) = [(card1 r, card2 r, card3 r, card4 r)] :=
  ⟨zeroRepeatBanners_doc r, repeatCountBanners_doc r, rcTables_doc r, rfl,
   cardsList_doc r⟩

/-- C4 counterexample: a record with repeat_calls.score = 25 equal to its
max_score = 25 gets NO success banner; instead the red count banner is
emitted and the card reads "HAS REPEATS" — refuting the claim that the
success banner appears iff score equals max_score. -/
theorem C4_counterexample :
    (rcOf recPerfect25).score.getD 0 = (rcOf recPerfect25).max_score.getD 30
    ∧ zeroRepeatBanners (generate_report_pdf recPerfect25) = []
    ∧ repeatCountBanners (generate_report_pdf recPerfect25) = [(0, C_RED)]
    ∧ (card4 recPerfect25).statusText = "HAS REPEATS" := by
  refine ⟨rfl, rfl, rfl, rfl⟩

/-- C6 (amended): the summary's max possible and percentage are the
record's stored max_possible (default 100) and percentage fields —
the renderer does not itself force them to 70 when feedback is marked
not applicable (that contract lies with the upstream analysis step) —
and the would-be adjusted percentage assuming an average 21/30 rating,
(total+21)/(max+30)*100, appears exactly when feedback is not applicable,
only in the feedback section's inapplicable-notice box, and nowhere else
in the document. -/
theorem C6_inapplicable_feedback_rendering (r : PerformanceRecord) :
    execBanners (generate_report_pdf r) =
      [(r.total_score.getD 0, r.max_possible.getD 100, r.percentage.getD 0)]
    ∧ inapplicableBoxes (generate_report_pdf r) =
      (if (fbOf r).applicable.getD true then []
       else [(r.total_score.getD 0, r.max_possible.getD 100,
              r.total_score.getD 0 + 21, r.max_possible.getD 100 + 30,
              (r.total_score.getD 0 + 21) / (r.max_possible.getD 100 + 30) * 100)]) :=
  ⟨execBanners_doc r, inapplicableBoxes_doc r⟩

/-- C6 counterexample: a record with feedback.applicable = false but a
stored max_possible of 100 renders a summary whose max possible is 100,
not 70 — refuting the claim that the rendered max possible is 70 whenever
feedback is not applicable. -/
theorem C6_counterexample :
    (fbOf recNoFeedback100).applicable.getD true = false
    ∧ execBanners (generate_report_pdf recNoFeedback100) = [(50, 100, 50)]
    ∧ (100 : ℚ) ≠ 70 := by
  refine ⟨rfl, rfl, by norm_num⟩

/-- C7 (amended): the form-quality SECTION HEADING uses the three-tier
scheme — green if score ≥ 8, orange if 5 ≤ score < 8, red if score < 5,
with the critical banner emitted exactly when score < 5 — but the summary
CARD is binary: "GOOD" (green) iff score ≥ 8, otherwise "CRITICAL" (red);
the card has no warning/orange tier. -/
theorem C7_form_quality_tiers (r : PerformanceRecord) :
    fqHeadings (generate_report_pdf r) =
      [((fqOf r).score.getD 0,
        if (fqOf r).score.getD 0 ≥ 8 then C_GREEN
        else if (fqOf r).score.getD 0 ≥ 5 then C_ORANGE else C_RED)]
    ∧ criticalBanners (generate_report_pdf r) =
      (if (fqOf r).score.getD 0 < 5 then [C_RED] else [])
    ∧ ((card2 r).statusText, (card2 r).color) =
      (if (fqOf r).score.getD 0 ≥ 8 then ("GOOD", "#27AE60")
       else ("CRITICAL", "#E74C3C"))
    ∧ cardsList (generate_report_pdf r) = [(card1 r, card2 r, card3 r, card4 r)] := by
  refine ⟨fqHeadings_doc r, criticalBanners_doc r, ?_, cardsList_doc r⟩
  by_cases h : (fqOf r).score.getD 0 ≥ 8 <;> simp [card2, mkCard, h]

/-- C7 counterexample: at a form-quality score of 6 (between 5 and 8) the
summary card shows "CRITICAL" in red, not a warning tier in orange —
refuting the claim that the 5 ≤ s < 8 tier is orange in the summary card. -/
theorem C7_counterexample :
    (5 : Int) ≤ (fqOf recFq6).score.getD 0
    ∧ (fqOf recFq6).score.getD 0 < 8
    ∧ ((card2 recFq6).statusText, (card2 recFq6).color) = ("CRITICAL", "#E74C3C")
    ∧ "#E74C3C" ≠ C_ORANGE := by
  refine ⟨by decide, by decide, rfl, by decide⟩

/-- C8 (amended): on the records of this model (integer sub-scores — the
only values the integer-only percent-plus-d format specifiers of lines
520, 524 and 620 accept — and rational rollups), rendering raises exactly
on the ZeroDivisionError of line 679, reached when feedback is not
applicable and the stored max_possible is -30; every other record —
however sparse, including all-absent fields and empty days, examples,
ratings and calls lists — renders successfully, and the document contains
the executive summary, the working-hours section with its day table, the
form-quality section, the customer-feedback section and the repeat-calls
section. -/
theorem C8_complete_document_unless_div_zero (r : PerformanceRecord)
    (h : (fbOf r).applicable.getD true = true
      ∨ r.max_possible.getD 100 + 30 ≠ 0) :
    generate_report_pdf_run r = .ok (generate_report_pdf r)
    ∧ (execBanners (generate_report_pdf r)).length = 1
    ∧ ("1. WORKING HOURS", C_DARK) ∈ headings (generate_report_pdf r)
    ∧ (daysTables (generate_report_pdf r)).length = 1
    ∧ (fqHeadings (generate_report_pdf r)).length = 1
    ∧ ("3. CUSTOMER FEEDBACK", C_DARK) ∈ headings (generate_report_pdf r)
    ∧ (rcHeadings (generate_report_pdf r)).length = 1 := by
  refine ⟨?_, ?_, ?_, ?_, ?_, ?_, ?_⟩
  · unfold generate_report_pdf_run
    rcases h with h | h <;> simp [h]
  all_goals
    simp [execBanners_doc, headings_doc, daysTables_doc, fqHeadings_doc,
      rcHeadings_doc]

/-- C8 witness: the all-absent record satisfies the no-division-by-zero
hypothesis and renders a complete document. -/
theorem C8_witness :
    ((fbOf emptyRecord).applicable.getD true = true
      ∨ emptyRecord.max_possible.getD 100 + 30 ≠ 0)
    ∧ (generate_report_pdf_run emptyRecord = .ok (generate_report_pdf emptyRecord)
       ∧ (execBanners (generate_report_pdf emptyRecord)).length = 1
       ∧ ("1. WORKING HOURS", C_DARK) ∈ headings (generate_report_pdf emptyRecord)
       ∧ (daysTables (generate_report_pdf emptyRecord)).length = 1
       ∧ (fqHeadings (generate_report_pdf emptyRecord)).length = 1
       ∧ ("3. CUSTOMER FEEDBACK", C_DARK) ∈ headings (generate_report_pdf emptyRecord)
       ∧ (rcHeadings (generate_report_pdf emptyRecord)).length = 1) :=
  ⟨Or.inl rfl, C8_complete_document_unless_div_zero emptyRecord (Or.inl rfl)⟩

/-- C8 counterexample: a well-typed record with feedback.applicable =
false and stored max_possible = -30 makes line 679 divide by zero —
rendering raises ZeroDivisionError, refuting the claim that rendering
never raises on any well-typed record. -/
theorem C8_counterexample :
    generate_report_pdf_run recDivZero = .error .zeroDivisionError := by
  simp [generate_report_pdf_run, recDivZero, emptyRecord, fbOf]

/-- C9: the batch driver exits 1 exactly on missing or unparsable index
arguments, before any job runs; on a valid index pair it executes the
Python-sliced segment of the name-sorted discovered scripts in order,
logging each job's outcome and exiting 0 regardless of per-job failures;
and the discovered list is a sorted permutation of the filtered listing. -/
theorem C9_batch_driver_exit_and_slice :
    (∀ listing outcome, run_reports_main [] listing outcome = ⟨1, []⟩)
    ∧ (∀ x listing outcome, run_reports_main [x] listing outcome = ⟨1, []⟩)
    ∧ (∀ b rest listing outcome,
        run_reports_main (none :: b :: rest) listing outcome = ⟨1, []⟩)
    ∧ (∀ a rest listing outcome,
        run_reports_main (some a :: none :: rest) listing outcome = ⟨1, []⟩)
    ∧ (∀ a b rest listing outcome,
        run_reports_main (some a :: some b :: rest) listing outcome =
          ⟨0, (pySlice (all_scripts listing) a b).map (fun s => (s, outcome s))⟩)
    ∧ (∀ listing : List String, (all_scripts listing).Perm
        (listing.filter (fun f => f.endsWith ".py" && f ≠ "run_reports.py")))
    ∧ (∀ listing : List String, (all_scripts listing).Sorted (· ≤ ·)) := by
  refine ⟨fun _ _ => rfl, fun _ _ _ => rfl, fun _ _ _ _ => rfl, fun _ _ _ _ => rfl,
    fun _ _ _ _ _ => rfl, fun listing => List.perm_insertionSort _ _,
    fun listing => List.sorted_insertionSort _ _⟩

/-- C10: the delivery run uploads the artifact exactly once; every
per-recipient send attempt uses that same media id; no failure aborts the
loop (every configured recipient is attempted, in order); and the reported
success and failure counts always sum to the number of recipients. -/
theorem C10_delivery_counts_and_single_upload (media_id : String)
    (to_numbers : List String) (sendOk : String → Bool) :
    (engineer_working_hour_main media_id to_numbers sendOk).uploads = 1
    ∧ (engineer_working_hour_main media_id to_numbers sendOk).sends =
        to_numbers.map (fun dst => (dst, media_id))
    ∧ (engineer_working_hour_main media_id to_numbers sendOk).successful
        + (engineer_working_hour_main media_id to_numbers sendOk).failed
        = to_numbers.length :=
  ⟨rfl, (sendLoop_spec media_id sendOk to_numbers).1,
   (sendLoop_spec media_id sendOk to_numbers).2⟩

end ZohoReport
